import Mathlib

/-!
Verification of the salon-reviews Canva app (client panel in `src/src/app.tsx`,
proxy in `src/server/reviews.js`) against its natural-language specification.
JavaScript semantics are embedded explicitly: optional values are `Option`,
falsy-or (`||`) is modelled with the falsiness of `none`, the empty string and `0`,
and optional chaining (`?.`) is `Option.bind`.
-/

namespace SalonReviews

/-- JS falsy-or `a || d` for an optional string: `undefined`/`null` (`none`) and the
empty string are falsy and fall through to the default `d`. -/
def jsOrStr : Option String → String → String
  | some s, d => if s = "" then d else s
  | none, d => d

/-- JS falsy-or `a || d` for an optional number: `undefined`/`null` and `0` are falsy. -/
def jsOrNat : Option Nat → Nat → Nat
  | some n, d => if n = 0 then d else n
  | none, d => d

/-- Whitespace characters removed by JS `String.prototype.trim` and matched by the
regex class `\s` (the ASCII portion, which covers everything the source manipulates). -/
def isJsSpace (c : Char) : Bool :=
  c == ' ' || c == '\t' || c == '\n' || c == '\r' || c == '\x0b' || c == '\x0c'

/-- Model of JS `s.trim()`: strip whitespace from both ends. -/
def jsTrim (s : String) : String :=
  ⟨((s.data.dropWhile isJsSpace).reverse.dropWhile isJsSpace).reverse⟩

/-- Model of JS `s.includes(c)` for a single-character needle. -/
def containsChar (s : String) (c : Char) : Bool :=
  s.data.contains c

/-- Whether a string contains any (ASCII) whitespace character; used to state the
spec's phrase "business id containing whitespace". -/
def containsWhitespace (s : String) : Bool :=
  s.data.any isJsSpace

/-- `validateBusinessId` from `src/src/app.tsx` (lines 156-159):
`id.trim().length > 0 && !id.includes(' ')` — non-empty after trimming and containing
no space character. -/
def validateBusinessId (id : String) : Bool :=
  decide (0 < (jsTrim id).length) && !(containsChar id ' ')

/-- Characters admitted by the regex class `[^\s@]`: not whitespace and not `@`. -/
def okEmailChar (c : Char) : Bool :=
  !(isJsSpace c) && c != '@'

/-- Split a character list at the first occurrence of `c`, if any. -/
def splitAtChar (c : Char) : List Char → Option (List Char × List Char)
  | [] => none
  | x :: xs =>
    if x = c then some ([], xs)
    else
      match splitAtChar c xs with
      | some (a, b) => some (x :: a, b)
      | none => none

/-- Whether the list contains a `'.'` that is not its last element. -/
def hasDotBeforeEnd : List Char → Bool
  | [] => false
  | [_] => false
  | c :: rest => c == '.' || hasDotBeforeEnd rest

/-- `validateEmail` from `src/src/app.tsx` (lines 152-154): the anchored regex
`^[^\s@]+@[^\s@]+\.[^\s@]+$`. A string matches exactly when it decomposes as
`local@domainRest` with a non-empty `local` of admitted characters, a single `@`,
and a `domainRest` of admitted characters containing a `.` with at least one
character on each side. -/
def validateEmail (s : String) : Bool :=
  match splitAtChar '@' s.data with
  | none => false
  | some (l, r) =>
    !l.isEmpty && l.all okEmailChar && r.all okEmailChar &&
      (match r with
       | [] => false
       | _ :: rest => hasDotBeforeEnd rest)

/-- Outcome of the local validation prefix of `fetchBranches`: an early `return` after
`setError msg` (before any network request), or fall-through to the axios call. -/
inductive FetchGuard where
  | reject (msg : String)
  | proceed
deriving DecidableEq

/-- User-facing messages are the `defaultMessage` strings handed to
`intl.formatMessage`; localization is modelled as the identity on the default. -/
def invalidBusinessIdMsg : String := "Please enter a valid Business ID"

/-- Default message for the invalid-email validation error. -/
def invalidEmailMsg : String := "Please enter a valid email address"

/-- Default message for the missing-password validation error. -/
def missingPasswordMsg : String := "Please enter your password"

/-- The validation prefix of `fetchBranches` (`src/src/app.tsx` lines 165-188): three
guards run in order — business id, email, password (`!password` for a string is
emptiness) — each returning before the network call. -/
def fetchBranchesGuard (businessId email password : String) : FetchGuard :=
  if !validateBusinessId businessId then .reject invalidBusinessIdMsg
  else if !validateEmail email then .reject invalidEmailMsg
  else if password = "" then .reject missingPasswordMsg
  else .proceed

/-- Shape of an axios error as destructured in the two catch blocks:
`error.response?.status` and `error.response?.data?.message`. -/
structure AxiosError where
  status : Option Nat
  message : Option String
deriving DecidableEq

/-- Default message of the 401 branch of `fetchBranches`. -/
def invalidCredentialsMsg : String :=
  "Invalid credentials. Please check your Business ID, email, and password."

/-- Default generic message of the catch block of `fetchBranches`. -/
def genericBranchesMsg : String := "Failed to fetch locations. Please try again."

/-- Default message of the 401 branch of `fetchReviews`. -/
def sessionExpiredMsg : String := "Your session has expired. Please re-enter your credentials."

/-- Default generic message of the catch block of `fetchReviews`. -/
def genericReviewsMsg : String := "Failed to fetch reviews. Please try again."

/-- The message passed to `setError` in the catch block of `fetchBranches`
(`src/src/app.tsx` lines 247-258). -/
def branchFetchErrorMessage (e : AxiosError) : String :=
  if e.status = some 401 then invalidCredentialsMsg
  else jsOrStr e.message genericBranchesMsg

/-- The message passed to `setError` in the catch block of `fetchReviews`
(`src/src/app.tsx` lines 320-331). -/
def reviewFetchErrorMessage (e : AxiosError) : String :=
  if e.status = some 401 then sessionExpiredMsg
  else jsOrStr e.message genericReviewsMsg

/-- One entry of `API_CONFIGS` (`src/src/app.tsx` lines 25-50): base URL, Basic-Auth
username format, and endpoint path builders. -/
structure ApiConfig where
  baseUrl : String
  authFormat : String → String
  branchesEndpoint : String → String
  reviewsEndpoint : String → String → String

/-- The `phorest` entry of `API_CONFIGS`. -/
def phorestConfig : ApiConfig where
  baseUrl := "https://api-gateway-eu.phorest.com/third-party-api-server/api/business"
  authFormat := fun email => "global/" ++ email
  branchesEndpoint := fun businessId => "/" ++ businessId ++ "/branch"
  reviewsEndpoint := fun businessId branchId =>
    "/" ++ businessId ++ "/branch/" ++ branchId ++ "/review"

/-- The `mindbody` entry of `API_CONFIGS`. -/
def mindbodyConfig : ApiConfig where
  baseUrl := "https://api.mindbodyonline.com/public/v6"
  authFormat := fun email => email
  branchesEndpoint := fun businessId => "/business/" ++ businessId ++ "/locations"
  reviewsEndpoint := fun businessId branchId =>
    "/business/" ++ businessId ++ "/location/" ++ branchId ++ "/reviews"

/-- The `boulevard` entry of `API_CONFIGS`. -/
def boulevardConfig : ApiConfig where
  baseUrl := "https://api.boulevard.io/api/v1"
  authFormat := fun email => email
  branchesEndpoint := fun businessId => "/businesses/" ++ businessId ++ "/locations"
  reviewsEndpoint := fun businessId branchId =>
    "/businesses/" ++ businessId ++ "/locations/" ++ branchId ++ "/reviews"

/-- Property names every plain object literal inherits from `Object.prototype`
(the twelve standard members, including the annex-B accessors and `__proto__`).
Bracket access `obj[key]` at any of these yields the inherited member — a function,
or `Object.prototype` itself for `__proto__` — which is truthy. -/
def protoKeys : List String :=
  ["constructor", "hasOwnProperty", "isPrototypeOf", "propertyIsEnumerable",
   "toLocaleString", "toString", "valueOf", "__proto__",
   "__defineGetter__", "__defineSetter__", "__lookupGetter__", "__lookupSetter__"]

/-- Value of the expression `API_CONFIGS[platform] || API_CONFIGS.phorest`: either a
usable config entry, or the truthy member inherited from `Object.prototype` — which
carries no `baseUrl`/`endpoints` fields. -/
inductive ApiConfigVal where
  | config (c : ApiConfig)
  | protoMember

/-- `getApiConfig` (`src/src/app.tsx` lines 161-163):
`API_CONFIGS[platform] || API_CONFIGS.phorest`. The `as keyof` cast is erased at
runtime and JS bracket access walks the prototype chain: an own key yields its
config entry; an `Object.prototype` property name yields the truthy inherited
member, so the `||` fallback never fires; any other key yields `undefined` and
falls back to the Phorest entry. -/
def getApiConfig (platform : String) : ApiConfigVal :=
  if platform = "phorest" then .config phorestConfig
  else if platform = "mindbody" then .config mindbodyConfig
  else if platform = "boulevard" then .config boulevardConfig
  else if platform ∈ protoKeys then .protoMember
  else .config phorestConfig

/-- Outcome of evaluating `apiConfig.baseUrl + apiConfig.endpoints.branches(...)`
inside the try block: a request URL, or a thrown TypeError when `apiConfig` is the
inherited prototype member — its `endpoints` is `undefined`, so the `.branches`
access throws, landing in the catch block (no `error.response`, hence the generic
fetch-failure message). -/
inductive BuildOutcome where
  | url (u : String)
  | typeError
deriving DecidableEq

/-- The URL `fetchBranches` requests (line 194):
`apiConfig.baseUrl + apiConfig.endpoints.branches(businessId)`. -/
def branchesRequestUrl (platform businessId : String) : BuildOutcome :=
  match getApiConfig platform with
  | .config c => .url (c.baseUrl ++ c.branchesEndpoint businessId)
  | .protoMember => .typeError

/-- The URL `fetchReviews` requests (line 269). -/
def reviewsRequestUrl (platform businessId branchId : String) : BuildOutcome :=
  match getApiConfig platform with
  | .config c => .url (c.baseUrl ++ c.reviewsEndpoint businessId branchId)
  | .protoMember => .typeError

/-- The response-body fields the branch-extraction `switch` of `fetchBranches`
inspects (lines 204-217): `_embedded?.branches`, `locations`, `data`. -/
structure BranchesResponse (α : Type) where
  embeddedBranches : Option (List α)
  locations : Option (List α)
  data : Option (List α)

/-- The `switch (platform)` computing `branchData` in `fetchBranches`. An empty JS
array is truthy, so `x || []` on an optional array is `Option.getD`. -/
def extractBranchData {α : Type} (platform : String) (r : BranchesResponse α) : List α :=
  if platform = "phorest" then r.embeddedBranches.getD []
  else if platform = "mindbody" then r.locations.getD []
  else if platform = "boulevard" then r.data.getD []
  else []

/-- The response-body fields the review-extraction `switch` of `fetchReviews`
inspects (lines 284-296): `_embedded?.reviews`, `reviews`, `data`. -/
structure ReviewsResponse (α : Type) where
  embeddedReviews : Option (List α)
  reviews : Option (List α)
  data : Option (List α)

/-- The `switch (platform)` computing `reviewData` in `fetchReviews`. -/
def extractReviewData {α : Type} (platform : String) (r : ReviewsResponse α) : List α :=
  if platform = "phorest" then r.embeddedReviews.getD []
  else if platform = "mindbody" then r.reviews.getD []
  else if platform = "boulevard" then r.data.getD []
  else []

/-- Optional person-name object of an upstream record (`customer`, `client`,
`staff`, `stylist`), each name part possibly absent. -/
structure RawName where
  firstName : Option String := none
  lastName : Option String := none
deriving DecidableEq

/-- A review record as returned by an upstream platform: a JS object where every
property may be absent. -/
structure RawReview where
  id : Option String := none
  customer : Option RawName := none
  client : Option RawName := none
  rating : Option Nat := none
  date : Option String := none
  createdAt : Option String := none
  text : Option String := none
  comment : Option String := none
  staff : Option RawName := none
  stylist : Option RawName := none
deriving DecidableEq

/-- The canonical normalized Review shape of the data model (§3 of the spec). -/
@[ext]
structure Review where
  reviewId : Option String
  clientFirstName : String
  clientLastName : String
  rating : Nat
  reviewDate : String
  text : String
  staffFirstName : String
  staffLastName : String
deriving DecidableEq

/-- Result of the `reviewData.map` callback in `fetchReviews`: Mindbody/Boulevard
records are rebuilt into the canonical shape, anything else (Phorest) is returned
unchanged. -/
inductive ReviewVal where
  | raw (r : RawReview)
  | norm (v : Review)
deriving DecidableEq

/-- Optional chain `obj?.firstName` on an optional name object. -/
def chainFirst (p : Option RawName) : Option String :=
  p.bind RawName.firstName

/-- Optional chain `obj?.lastName` on an optional name object. -/
def chainLast (p : Option RawName) : Option String :=
  p.bind RawName.lastName

/-- The normalization callback of `fetchReviews` (`src/src/app.tsx` lines 299-316).
`now` stands for `new Date().toISOString()` at the moment of mapping. -/
def normalizeReview (platform : String) (now : String) (r : RawReview) : ReviewVal :=
  if platform = "mindbody" ∨ platform = "boulevard" then
    .norm
      { reviewId := r.id
        clientFirstName := jsOrStr (chainFirst r.customer) (jsOrStr (chainFirst r.client) "")
        clientLastName := jsOrStr (chainLast r.customer) (jsOrStr (chainLast r.client) "")
        rating := jsOrNat r.rating 5
        reviewDate := jsOrStr r.date (jsOrStr r.createdAt now)
        text := jsOrStr r.text (jsOrStr r.comment "")
        staffFirstName := jsOrStr (chainFirst r.staff) (jsOrStr (chainFirst r.stylist) "")
        staffLastName := jsOrStr (chainLast r.staff) (jsOrStr (chainLast r.stylist) "") }
  else .raw r

/-- Follows the spec's words (§4.2, §8): a field-by-field remap where the first
present source field is used and the stated default applies when absent —
`customer`/`client` name fields, `text` or `comment` for the body, `date`/`createdAt`
for the timestamp defaulting to the current time, rating defaulting to 5. Written
independently of the source for comparison with `normalizeReview`. -/
def specNormalizeReview (now : String) (r : RawReview) : Review where
  reviewId := r.id
  clientFirstName := (chainFirst r.customer).getD ((chainFirst r.client).getD "")
  clientLastName := (chainLast r.customer).getD ((chainLast r.client).getD "")
  rating := r.rating.getD 5
  reviewDate := r.date.getD (r.createdAt.getD now)
  text := r.text.getD (r.comment.getD "")
  staffFirstName := (chainFirst r.staff).getD ((chainFirst r.stylist).getD "")
  staffLastName := (chainLast r.staff).getD ((chainLast r.stylist).getD "")

/-- A supplied optional string field is not the empty string. This rules out the only
string case where JS falsy-or and plain absence differ. -/
def suppliedOk : Option String → Bool
  | some s => decide (s ≠ "")
  | none => true

/-- Well-formed upstream record: supplied string fields are non-empty and a supplied
rating is non-zero (the data model's ratings are 1..5). -/
def wfRawReview (r : RawReview) : Bool :=
  decide (r.rating ≠ some 0) &&
    suppliedOk (chainFirst r.customer) && suppliedOk (chainLast r.customer) &&
    suppliedOk (chainFirst r.client) && suppliedOk (chainLast r.client) &&
    suppliedOk r.date && suppliedOk r.createdAt &&
    suppliedOk r.text && suppliedOk r.comment &&
    suppliedOk (chainFirst r.staff) && suppliedOk (chainLast r.staff) &&
    suppliedOk (chainFirst r.stylist) && suppliedOk (chainLast r.stylist)

theorem jsOrStr_eq_getD {a : Option String} (d : String) (h : suppliedOk a = true) :
    jsOrStr a d = a.getD d := by
  cases a with
  | none => rfl
  | some s =>
    have hs : s ≠ "" := by simpa [suppliedOk] using h
    simp [jsOrStr, hs]

theorem jsOrNat_eq_getD {a : Option Nat} (d : Nat) (h : a ≠ some 0) :
    jsOrNat a d = a.getD d := by
  cases a with
  | none => rfl
  | some n =>
    have hn : n ≠ 0 := by
      intro hn0
      exact h (by rw [hn0])
    simp [jsOrNat, hn]

/-- Repetition of the star emoji: `"⭐".repeat(rating)` in `insertReview`. The emoji
U+2B50 is a single UTF-16 unit, so JS string length equals character count. -/
def starRepeat (n : Nat) : String :=
  ⟨List.replicate n '⭐'⟩

/-- The hardcoded fallback client name in `insertReview`. -/
def anonymousClientName : String := "Anonymous Client"

/-- The hardcoded fallback body text in `insertReview`. -/
def noMessageProvided : String := "No message provided"

/-- `insertReview` (`src/src/app.tsx` lines 337-367): the single text content handed to
`addElement` — header, quoted message, stars and client name joined by blank lines.
Empty strings are falsy, so `first && last` and `review.text || default` test
non-emptiness. -/
def insertReviewText (r : Review) : String :=
  let clientName :=
    if r.clientFirstName ≠ "" ∧ r.clientLastName ≠ "" then
      r.clientFirstName ++ " " ++ r.clientLastName
    else anonymousClientName
  let message := if r.text = "" then noMessageProvided else r.text
  let stars := starRepeat r.rating
  String.intercalate "\n"
    ["CLIENT REVIEW", "", "\"" ++ message ++ "\"", "", stars, "", clientName]

/-- JS `s.charAt(0)`: the first character as a string, `""` on the empty string. -/
def charAtZero (s : String) : String :=
  match s.data with
  | [] => ""
  | c :: _ => ⟨[c]⟩

/-- The client display name in the review-card rendering (`src/src/app.tsx` lines
591-596): `<first> <lastInitial>.` when both parts are present, else the localized
"Anonymous" (modelled by its default message). -/
def cardDisplayName (r : Review) : String :=
  if r.clientFirstName ≠ "" ∧ r.clientLastName ≠ "" then
    r.clientFirstName ++ " " ++ charAtZero r.clientLastName ++ "."
  else "Anonymous"

/-- A branch in the common client shape. -/
structure Branch where
  id : String
  name : String
deriving DecidableEq

/-- The client panel's state variables (`src/src/app.tsx` lines 90-104) that the
claims are about. -/
structure ClientState where
  platform : String
  businessId : String
  email : String
  password : String
  branches : List Branch
  branchId : String
  reviews : List Review
  loading : Bool
  error : Option String
  sortBy : String
  filterRating : Nat
  hasFetchedReviews : Bool
deriving DecidableEq

/-- The branch Select's onChange handler (`src/src/app.tsx` line 518):
`(value) => setBranchId(value || '')`. It updates only `branchId`. -/
def branchSelectOnChange (s : ClientState) (value : Option String) : ClientState :=
  { s with branchId := jsOrStr value "" }

/-- Truthiness of an optional string body field, as tested by the proxy's
`if (!businessId || ...)` guards. -/
def jsTruthyStr : Option String → Bool
  | some s => decide (s ≠ "")
  | none => false

/-- Request body of the proxy's `POST /api/branches` (`src/server/reviews.js`). -/
structure BranchesBody where
  businessId : Option String
  username : Option String
  password : Option String
deriving DecidableEq

/-- Request body of the proxy's `POST /api/reviews`. -/
structure ReviewsBody where
  businessId : Option String
  branchId : Option String
  username : Option String
  password : Option String
deriving DecidableEq

/-- Outcome of the outbound upstream GET, had it been issued. -/
inductive UpstreamResult (α : Type) where
  | ok (payload : α)
  | fail
deriving DecidableEq

/-- Upstream payload of the reviews route: a `reviews` field that may be absent, plus
whatever else the envelope carries (abstracted as `rest`). -/
structure ReviewsPayload (α : Type) where
  reviews : Option (List α)
  rest : String
deriving DecidableEq

/-- Response body of the branches route: either an error object or the upstream
payload relayed verbatim. -/
inductive BranchesOut (β : Type) where
  | errorBody (msg : String)
  | payload (d : β)
deriving DecidableEq

/-- Response body of the reviews route: either an error object or a bare JSON array. -/
inductive ReviewsOut (α : Type) where
  | errorBody (msg : String)
  | jsonList (xs : List α)
deriving DecidableEq

/-- A proxy response together with whether control reached the outbound axios call. -/
structure ProxyResponse (β : Type) where
  status : Nat
  body : β
  upstreamCalled : Bool
deriving DecidableEq

/-- Handler of `POST /api/branches` (`src/server/reviews.js` lines 12-33): reject with
400 before any outbound call when a credential field is missing or empty; otherwise
relay the upstream JSON verbatim on success (status 200) or answer 500 with a generic
error body on any upstream failure. -/
def handleBranches {β : Type} (body : BranchesBody) (upstream : UpstreamResult β) :
    ProxyResponse (BranchesOut β) :=
  if !jsTruthyStr body.businessId || !jsTruthyStr body.username ||
      !jsTruthyStr body.password then
    ⟨400, .errorBody "Missing credentials", false⟩
  else
    match upstream with
    | .ok d => ⟨200, .payload d, true⟩
    | .fail => ⟨500, .errorBody "Failed to fetch branches", true⟩

/-- Handler of `POST /api/reviews` (`src/server/reviews.js` lines 36-57): same guard
over four fields; on success answer `response.data.reviews || []` as a bare array; on
upstream failure answer 500 with a generic error body. -/
def handleReviews {α : Type} (body : ReviewsBody)
    (upstream : UpstreamResult (ReviewsPayload α)) : ProxyResponse (ReviewsOut α) :=
  if !jsTruthyStr body.businessId || !jsTruthyStr body.branchId ||
      !jsTruthyStr body.username || !jsTruthyStr body.password then
    ⟨400, .errorBody "Missing required fields", false⟩
  else
    match upstream with
    | .ok d => ⟨200, .jsonList (d.reviews.getD []), true⟩
    | .fail => ⟨500, .errorBody "Failed to fetch reviews", true⟩

/-- The filter stage of `getSortedAndFilteredReviews` (`src/src/app.tsx` line 405):
`filterRating === 0 || review.rating === filterRating`. -/
def filterStep (filterRating : Nat) (l : List Review) : List Review :=
  l.filter fun r => filterRating == 0 || r.rating == filterRating

/-- The comparator order for `sortBy === "newest"`: `a` precedes `b` when the parsed
time of `b` is at most the parsed time of `a` (comparator `timeB - timeA ≤ 0`).
`g` is the date parse `new Date(s).getTime()`, kept abstract. -/
def newestLe (g : String → Int) (a b : Review) : Prop :=
  g b.reviewDate ≤ g a.reviewDate

/-- The comparator order for `sortBy === "oldest"` (comparator `timeA - timeB ≤ 0`). -/
def oldestLe (g : String → Int) (a b : Review) : Prop :=
  g a.reviewDate ≤ g b.reviewDate

instance (g : String → Int) : DecidableRel (newestLe g) := fun a b =>
  inferInstanceAs (Decidable (g b.reviewDate ≤ g a.reviewDate))

instance (g : String → Int) : DecidableRel (oldestLe g) := fun a b =>
  inferInstanceAs (Decidable (g a.reviewDate ≤ g b.reviewDate))

instance (g : String → Int) : IsTotal Review (newestLe g) :=
  ⟨fun a b => (le_total (g a.reviewDate) (g b.reviewDate)).symm⟩

instance (g : String → Int) : IsTrans Review (newestLe g) :=
  ⟨fun _ _ _ hab hbc => le_trans hbc hab⟩

/-- The sort stage of `getSortedAndFilteredReviews` (lines 406-413). JS
`Array.prototype.sort` is a stable sort w.r.t. the comparator, modelled by stable
insertion sort; with a comparator that always returns 0 (any other `sortBy`) a stable
sort is the identity. -/
def sortStep (g : String → Int) (sortBy : String) (l : List Review) : List Review :=
  if sortBy = "newest" then l.insertionSort (newestLe g)
  else if sortBy = "oldest" then l.insertionSort (oldestLe g)
  else l

/-- `getSortedAndFilteredReviews` (`src/src/app.tsx` lines 403-414): filter then sort.
`reviews.filter` allocates a fresh array, so the in-place `.sort` never touches the
stored `reviews` list — the view is a pure function of the stored state. -/
def getSortedAndFilteredReviews (g : String → Int) (sortBy : String)
    (filterRating : Nat) (reviews : List Review) : List Review :=
  sortStep g sortBy (filterStep filterRating reviews)

/-- The end-to-end sample review of §8 of the spec. -/
def amyLeeReview : Review where
  reviewId := some "r1"
  clientFirstName := "Amy"
  clientLastName := "Lee"
  rating := 5
  reviewDate := "2024-01-01T00:00:00Z"
  text := "Great!"
  staffFirstName := ""
  staffLastName := ""

/-- A client-panel state right after a successful review fetch for branch `b1`. -/
def stateAfterFetchB1 : ClientState where
  platform := "phorest"
  businessId := "biz-1"
  email := "amy@example.com"
  password := "pw"
  branches := [⟨"b1", "Downtown"⟩, ⟨"b2", "Uptown"⟩]
  branchId := "b1"
  reviews := [amyLeeReview]
  loading := false
  error := none
  sortBy := "newest"
  filterRating := 5
  hasFetchedReviews := true

/-- C1: the branch Select's onChange handler only sets `branchId`; it neither clears
the previously fetched review list nor resets the has-fetched flag. Evaluated
concretely on a state holding the reviews fetched for branch `b1` while the user
selects `b2`: the stale list survives the switch. -/
theorem branchSwitch_keepsStaleReviews :
    (∀ (s : ClientState) (v : Option String),
      (branchSelectOnChange s v).reviews = s.reviews ∧
      (branchSelectOnChange s v).hasFetchedReviews = s.hasFetchedReviews) ∧
    (branchSelectOnChange stateAfterFetchB1 (some "b2")).branchId = "b2" ∧
    (branchSelectOnChange stateAfterFetchB1 (some "b2")).reviews = [amyLeeReview] ∧
    (branchSelectOnChange stateAfterFetchB1 (some "b2")).hasFetchedReviews = true ∧
    stateAfterFetchB1.reviews ≠ [] :=
  ⟨fun _ _ => ⟨rfl, rfl⟩, by decide, by decide, rfl, by decide⟩

/-- C2: on Mindbody/Boulevard records the normalization of `fetchReviews` produces
exactly the Review described by the spec — names from `customer`/`client`, body from
`text`/`comment`, timestamp from `date`/`createdAt` defaulting to the current time,
staff names from `staff`/`stylist`, rating defaulting to 5 when absent — and any
other (Phorest) record is passed through unchanged. Well-formedness only excludes
empty-string field values and a zero rating, where JS falsy-or and plain absence
would differ. -/
theorem normalizeReview_matches_spec (p now : String) (r : RawReview)
    (hp : p = "mindbody" ∨ p = "boulevard") (hw : wfRawReview r = true) :
    normalizeReview p now r = .norm (specNormalizeReview now r) ∧
    normalizeReview "phorest" now r = .raw r := by
  simp only [wfRawReview, Bool.and_eq_true, decide_eq_true_eq] at hw
  obtain ⟨⟨⟨⟨⟨⟨⟨⟨⟨⟨⟨⟨hrat, hcf⟩, hcl⟩, hklf⟩, hkll⟩, hdate⟩, hcreated⟩, htext⟩,
    hcomment⟩, hsf⟩, hsl⟩, hstf⟩, hstl⟩ := hw
  constructor
  · unfold normalizeReview
    rw [if_pos hp]
    refine congrArg ReviewVal.norm ?_
    unfold specNormalizeReview
    refine Review.ext rfl ?_ ?_ ?_ ?_ ?_ ?_ ?_
    · rw [jsOrStr_eq_getD _ hcf, jsOrStr_eq_getD _ hklf]
    · rw [jsOrStr_eq_getD _ hcl, jsOrStr_eq_getD _ hkll]
    · rw [jsOrNat_eq_getD _ hrat]
    · rw [jsOrStr_eq_getD _ hdate, jsOrStr_eq_getD _ hcreated]
    · rw [jsOrStr_eq_getD _ htext, jsOrStr_eq_getD _ hcomment]
    · rw [jsOrStr_eq_getD _ hsf, jsOrStr_eq_getD _ hstf]
    · rw [jsOrStr_eq_getD _ hsl, jsOrStr_eq_getD _ hstl]
  · unfold normalizeReview
    rw [if_neg (by decide)]

/-- A Mindbody-shaped sample record: customer names, `comment`, `createdAt`, stylist
names, no rating. -/
def mbSampleRaw : RawReview where
  id := some "m1"
  customer := some { firstName := some "Jane", lastName := some "Doe" }
  comment := some "Lovely cut"
  createdAt := some "2024-03-04T10:00:00Z"
  stylist := some { firstName := some "Sam", lastName := some "Lee" }

/-- Witness for C2 at a concrete Mindbody-shaped record. -/
theorem normalizeReview_matches_spec_witness :
    wfRawReview mbSampleRaw = true ∧
    normalizeReview "mindbody" "2024-05-05T00:00:00Z" mbSampleRaw =
      .norm (specNormalizeReview "2024-05-05T00:00:00Z" mbSampleRaw) ∧
    normalizeReview "phorest" "2024-05-05T00:00:00Z" mbSampleRaw = .raw mbSampleRaw :=
  ⟨by decide,
   (normalizeReview_matches_spec "mindbody" "2024-05-05T00:00:00Z" mbSampleRaw
      (Or.inl rfl) (by decide)).1,
   (normalizeReview_matches_spec "mindbody" "2024-05-05T00:00:00Z" mbSampleRaw
      (Or.inl rfl) (by decide)).2⟩

/-- C3 counterexample: the business id `"a\tb"` contains whitespace (a tab), yet
`validateBusinessId` accepts it — only the space character is tested by
`id.includes(' ')` — so `fetchBranchesGuard` falls through to the network call
instead of rejecting locally. -/
theorem businessId_whitespace_not_rejected :
    containsWhitespace "a\tb" = true ∧
    validateBusinessId "a\tb" = true ∧
    fetchBranchesGuard "a\tb" "a@b.c" "pw" = .proceed := by
  decide

/-- C3 (amended): a business id that is empty after trimming or contains a space
character is rejected locally with the message naming the Business ID field, before
any network call; likewise an email rejected by the validation pattern yields the
email message, and an empty password the password message. -/
theorem fetchBranches_local_validation (bid email pw : String) :
    ((jsTrim bid).length = 0 ∨ containsChar bid ' ' = true →
      fetchBranchesGuard bid email pw = .reject invalidBusinessIdMsg) ∧
    (validateBusinessId bid = true → validateEmail email = false →
      fetchBranchesGuard bid email pw = .reject invalidEmailMsg) ∧
    (validateBusinessId bid = true → validateEmail email = true → pw = "" →
      fetchBranchesGuard bid email pw = .reject missingPasswordMsg) := by
  refine ⟨?_, ?_, ?_⟩
  · intro h
    have hv : validateBusinessId bid = false := by
      rcases h with h | h <;> simp [validateBusinessId, h]
    simp [fetchBranchesGuard, hv]
  · intro h1 h2
    simp [fetchBranchesGuard, h1, h2]
  · intro h1 h2 h3
    simp [fetchBranchesGuard, h1, h2, h3]

/-- Witness for C3 (amended): each of the three guards firing at a concrete input. -/
theorem fetchBranches_local_validation_witness :
    containsChar "abc def" ' ' = true ∧
    fetchBranchesGuard "abc def" "a@b.c" "pw" = .reject invalidBusinessIdMsg ∧
    validateEmail "not-an-email" = false ∧
    fetchBranchesGuard "abc" "not-an-email" "pw" = .reject invalidEmailMsg ∧
    fetchBranchesGuard "abc" "a@b.c" "" = .reject missingPasswordMsg :=
  ⟨by decide,
   (fetchBranches_local_validation "abc def" "a@b.c" "pw").1 (Or.inr (by decide)),
   by decide,
   (fetchBranches_local_validation "abc" "not-an-email" "pw").2.1 (by decide) (by decide),
   (fetchBranches_local_validation "abc" "a@b.c" "").2.2 (by decide) (by decide) rfl⟩

/-- C4: a 401 upstream status yields the invalid-credentials wording from
`fetchBranches` and the session-expired wording from `fetchReviews`; any other
failure yields the operation-specific generic message, preferring a (non-empty)
upstream-supplied `message` field. -/
theorem fetchFailure_error_messages (e : AxiosError) :
    (e.status = some 401 →
      branchFetchErrorMessage e = invalidCredentialsMsg ∧
      reviewFetchErrorMessage e = sessionExpiredMsg) ∧
    (e.status ≠ some 401 →
      (∀ m, e.message = some m → m ≠ "" →
        branchFetchErrorMessage e = m ∧ reviewFetchErrorMessage e = m) ∧
      (e.message = none ∨ e.message = some "" →
        branchFetchErrorMessage e = genericBranchesMsg ∧
        reviewFetchErrorMessage e = genericReviewsMsg)) := by
  constructor
  · intro h
    unfold branchFetchErrorMessage reviewFetchErrorMessage
    rw [if_pos h, if_pos h]
    exact ⟨rfl, rfl⟩
  · intro h
    constructor
    · intro m hm hne
      unfold branchFetchErrorMessage reviewFetchErrorMessage
      rw [if_neg h, if_neg h, hm]
      simp [jsOrStr, hne]
    · intro hm
      unfold branchFetchErrorMessage reviewFetchErrorMessage
      rw [if_neg h, if_neg h]
      rcases hm with hm | hm <;> simp [jsOrStr, hm]

/-- Witness for C4: the 401 wording and the upstream-message preference at concrete
errors. -/
theorem fetchFailure_error_messages_witness :
    branchFetchErrorMessage ⟨some 401, none⟩ = invalidCredentialsMsg ∧
    reviewFetchErrorMessage ⟨some 401, none⟩ = sessionExpiredMsg ∧
    branchFetchErrorMessage ⟨some 500, some "Boom"⟩ = "Boom" ∧
    reviewFetchErrorMessage ⟨some 503, none⟩ = genericReviewsMsg :=
  ⟨((fetchFailure_error_messages ⟨some 401, none⟩).1 rfl).1,
   ((fetchFailure_error_messages ⟨some 401, none⟩).1 rfl).2,
   (((fetchFailure_error_messages ⟨some 500, some "Boom"⟩).2 (by decide)).1
      "Boom" rfl (by decide)).1,
   (((fetchFailure_error_messages ⟨some 503, none⟩).2 (by decide)).2 (Or.inl rfl)).2⟩

/-- C5: a proxy request missing any required body field is answered with status 400
and an error body, and control never reaches the outbound upstream call — for both
`POST /api/branches` and `POST /api/reviews`. -/
theorem proxy_missing_field_rejects {β α : Type} (b : BranchesBody) (rb : ReviewsBody)
    (u : UpstreamResult β) (ur : UpstreamResult (ReviewsPayload α)) :
    (b.businessId = none ∨ b.username = none ∨ b.password = none →
      handleBranches b u = ⟨400, .errorBody "Missing credentials", false⟩) ∧
    (rb.businessId = none ∨ rb.branchId = none ∨ rb.username = none ∨
        rb.password = none →
      handleReviews rb ur = ⟨400, .errorBody "Missing required fields", false⟩) := by
  constructor
  · intro h
    rcases h with h | h | h <;> simp [handleBranches, jsTruthyStr, h]
  · intro h
    rcases h with h | h | h | h <;> simp [handleReviews, jsTruthyStr, h]

/-- Witness for C5: concrete bodies missing the password field. -/
theorem proxy_missing_field_rejects_witness :
    @handleBranches Nat ⟨some "biz", some "user", none⟩ .fail =
      ⟨400, .errorBody "Missing credentials", false⟩ ∧
    @handleReviews Nat ⟨some "biz", some "b1", some "user", none⟩ .fail =
      ⟨400, .errorBody "Missing required fields", false⟩ :=
  ⟨(@proxy_missing_field_rejects Nat Nat ⟨some "biz", some "user", none⟩
      ⟨some "biz", some "b1", some "user", none⟩ .fail .fail).1
      (Or.inr (Or.inr rfl)),
   (@proxy_missing_field_rejects Nat Nat ⟨some "biz", some "user", none⟩
      ⟨some "biz", some "b1", some "user", none⟩ .fail .fail).2
      (Or.inr (Or.inr (Or.inr rfl)))⟩

/-- C6: when all required fields are supplied, a successful upstream response to
`POST /api/reviews` is answered with only the `reviews` array (empty when the field
is absent) — the response depends on nothing else in the upstream envelope — and any
upstream failure is answered with status 500 and a generic error body. -/
theorem proxy_reviews_success_projection {α : Type} (rb : ReviewsBody)
    (p : ReviewsPayload α)
    (h1 : jsTruthyStr rb.businessId = true) (h2 : jsTruthyStr rb.branchId = true)
    (h3 : jsTruthyStr rb.username = true) (h4 : jsTruthyStr rb.password = true) :
    handleReviews rb (.ok p) = ⟨200, .jsonList (p.reviews.getD []), true⟩ ∧
    (p.reviews = none → handleReviews rb (.ok p) = ⟨200, .jsonList [], true⟩) ∧
    (∀ q : ReviewsPayload α, q.reviews = p.reviews →
      handleReviews rb (.ok q) = handleReviews rb (.ok p)) ∧
    handleReviews rb (.fail : UpstreamResult (ReviewsPayload α)) =
      ⟨500, .errorBody "Failed to fetch reviews", true⟩ := by
  refine ⟨?_, ?_, ?_, ?_⟩
  · simp [handleReviews, h1, h2, h3, h4]
  · intro h
    simp [handleReviews, h1, h2, h3, h4, h]
  · intro q hq
    simp [handleReviews, h1, h2, h3, h4, hq]
  · simp [handleReviews, h1, h2, h3, h4]

/-- Witness for C6: a concrete well-formed body against a payload carrying extra
envelope fields, and against a payload with no `reviews` field. -/
theorem proxy_reviews_success_projection_witness :
    jsTruthyStr (some "biz") = true ∧
    @handleReviews Nat ⟨some "biz", some "b1", some "u", some "pw"⟩
        (.ok ⟨some [1, 2], "extra envelope fields"⟩) =
      ⟨200, .jsonList [1, 2], true⟩ ∧
    @handleReviews Nat ⟨some "biz", some "b1", some "u", some "pw"⟩
        (.ok ⟨none, "extra envelope fields"⟩) =
      ⟨200, .jsonList [], true⟩ ∧
    @handleReviews Nat ⟨some "biz", some "b1", some "u", some "pw"⟩ .fail =
      ⟨500, .errorBody "Failed to fetch reviews", true⟩ :=
  ⟨by decide,
   (proxy_reviews_success_projection ⟨some "biz", some "b1", some "u", some "pw"⟩
      ⟨some [1, 2], "extra envelope fields"⟩
      (by decide) (by decide) (by decide) (by decide)).1,
   (proxy_reviews_success_projection ⟨some "biz", some "b1", some "u", some "pw"⟩
      ⟨none, "extra envelope fields"⟩
      (by decide) (by decide) (by decide) (by decide)).2.1 rfl,
   (proxy_reviews_success_projection ⟨some "biz", some "b1", some "u", some "pw"⟩
      (⟨none, "extra envelope fields"⟩ : ReviewsPayload Nat)
      (by decide) (by decide) (by decide) (by decide)).2.2.2⟩

/-- A review with both client name parts absent (empty). -/
def noNameReview : Review where
  reviewId := some "r2"
  clientFirstName := ""
  clientLastName := ""
  rating := 3
  reviewDate := "2024-01-02T00:00:00Z"
  text := "Nice"
  staffFirstName := ""
  staffLastName := ""

/-- C7 counterexample: the insertion operation composes the full client name
"Amy Lee", not the claimed `<first> <lastInitial>.` form "Amy L.", and its fallback
placeholder is "Anonymous Client", not "Anonymous" — those two forms belong to the
review-card rendering, not to `insertReview`. -/
theorem insertReview_fullName_counterexample :
    insertReviewText amyLeeReview =
      "CLIENT REVIEW\n\n\"Great!\"\n\n⭐⭐⭐⭐⭐\n\nAmy Lee" ∧
    insertReviewText amyLeeReview ≠
      "CLIENT REVIEW\n\n\"Great!\"\n\n⭐⭐⭐⭐⭐\n\nAmy L." ∧
    insertReviewText noNameReview =
      "CLIENT REVIEW\n\n\"Nice\"\n\n⭐⭐⭐\n\nAnonymous Client" ∧
    insertReviewText noNameReview ≠
      "CLIENT REVIEW\n\n\"Nice\"\n\n⭐⭐⭐\n\nAnonymous" := by
  refine ⟨by decide, by decide, by decide, by decide⟩

/-- C7 (amended): the composed insertion message uses the full client name
`<first> <last>` when both parts are non-empty and the fixed "Anonymous Client"
placeholder otherwise, renders the rating as a star-glyph string whose length equals
the integer rating, and substitutes "No message provided" when the body text is
empty; the `<first> <lastInitial>.` display belongs to the review card. -/
theorem insertReview_composition (r : Review) :
    (r.clientFirstName = "" ∨ r.clientLastName = "" →
      insertReviewText r = String.intercalate "\n"
        ["CLIENT REVIEW", "",
          "\"" ++ (if r.text = "" then noMessageProvided else r.text) ++ "\"", "",
          starRepeat r.rating, "", anonymousClientName]) ∧
    (r.clientFirstName ≠ "" → r.clientLastName ≠ "" →
      insertReviewText r = String.intercalate "\n"
        ["CLIENT REVIEW", "",
          "\"" ++ (if r.text = "" then noMessageProvided else r.text) ++ "\"", "",
          starRepeat r.rating, "",
          r.clientFirstName ++ " " ++ r.clientLastName]) ∧
    (starRepeat r.rating).length = r.rating ∧
    (r.clientFirstName ≠ "" → r.clientLastName ≠ "" →
      cardDisplayName r = r.clientFirstName ++ " " ++ charAtZero r.clientLastName ++ ".") := by
  refine ⟨?_, ?_, ?_, ?_⟩
  · intro h
    have hn : ¬(r.clientFirstName ≠ "" ∧ r.clientLastName ≠ "") := by
      rcases h with h | h <;> simp [h]
    simp only [insertReviewText]
    rw [if_neg hn]
  · intro h1 h2
    have hc : r.clientFirstName ≠ "" ∧ r.clientLastName ≠ "" := ⟨h1, h2⟩
    simp only [insertReviewText]
    rw [if_pos hc]
  · simp [starRepeat, String.length]
  · intro h1 h2
    have hc : r.clientFirstName ≠ "" ∧ r.clientLastName ≠ "" := ⟨h1, h2⟩
    unfold cardDisplayName
    rw [if_pos hc]

/-- Witness for C7 (amended) at the §8 sample review. -/
theorem insertReview_composition_witness :
    amyLeeReview.clientFirstName ≠ "" ∧
    insertReviewText amyLeeReview = String.intercalate "\n"
      ["CLIENT REVIEW", "",
        "\"" ++ (if amyLeeReview.text = "" then noMessageProvided else amyLeeReview.text) ++
          "\"", "",
        starRepeat amyLeeReview.rating, "",
        amyLeeReview.clientFirstName ++ " " ++ amyLeeReview.clientLastName] ∧
    cardDisplayName amyLeeReview =
      amyLeeReview.clientFirstName ++ " " ++ charAtZero amyLeeReview.clientLastName ++ "." :=
  ⟨by decide,
   (insertReview_composition amyLeeReview).2.1 (by decide) (by decide),
   (insertReview_composition amyLeeReview).2.2.2 (by decide) (by decide)⟩

/-- C8: invoking the insert operation on the §8 sample review produces exactly the
literal composed string. -/
theorem insertReview_concrete_string :
    insertReviewText amyLeeReview =
      "CLIENT REVIEW\n\n\"Great!\"\n\n⭐⭐⭐⭐⭐\n\nAmy Lee" := by
  decide

theorem filterStep_zero (l : List Review) : filterStep 0 l = l := by
  simp [filterStep]

theorem sortStep_perm (g : String → Int) (s : String) (l : List Review) :
    (sortStep g s l).Perm l := by
  unfold sortStep
  split
  · exact List.perm_insertionSort _ _
  · split
    · exact List.perm_insertionSort _ _
    · exact List.Perm.refl _

theorem gSAFR_newest_sorted (g : String → Int) (f : Nat) (l : List Review) :
    List.Sorted (newestLe g) (getSortedAndFilteredReviews g "newest" f l) := by
  unfold getSortedAndFilteredReviews sortStep
  rw [if_pos rfl]
  exact List.sorted_insertionSort _ _

theorem gSAFR_newest_mem_pred (g : String → Int) (f : Nat) (l : List Review)
    (a : Review) (ha : a ∈ getSortedAndFilteredReviews g "newest" f l) :
    (f == 0 || a.rating == f) = true := by
  unfold getSortedAndFilteredReviews sortStep at ha
  rw [if_pos rfl, List.mem_insertionSort] at ha
  unfold filterStep at ha
  exact (List.mem_filter.mp ha).2

/-- C9: the sort-and-filter view with filter rating 0 keeps every stored review (the
filter stage is the identity and the result is a permutation of the stored list);
applying the view with sort "newest" twice yields the same list as applying it once;
and — the view being a function of the stored list that returns a fresh list — the
stored list itself is never modified. -/
theorem view_filter_sort_properties (g : String → Int) (s : String) (f : Nat)
    (l : List Review) :
    filterStep 0 l = l ∧
    (getSortedAndFilteredReviews g s 0 l).Perm l ∧
    getSortedAndFilteredReviews g "newest" f
        (getSortedAndFilteredReviews g "newest" f l) =
      getSortedAndFilteredReviews g "newest" f l := by
  refine ⟨filterStep_zero l, ?_, ?_⟩
  · unfold getSortedAndFilteredReviews
    rw [filterStep_zero]
    exact sortStep_perm g s l
  · have hfix : filterStep f (getSortedAndFilteredReviews g "newest" f l) =
        getSortedAndFilteredReviews g "newest" f l := by
      unfold filterStep
      rw [List.filter_eq_self]
      intro a ha
      exact gSAFR_newest_mem_pred g f l a ha
    have step1 : getSortedAndFilteredReviews g "newest" f
          (getSortedAndFilteredReviews g "newest" f l) =
        sortStep g "newest"
          (filterStep f (getSortedAndFilteredReviews g "newest" f l)) := rfl
    rw [step1, hfix]
    unfold sortStep
    rw [if_pos rfl]
    exact (gSAFR_newest_sorted g f l).insertionSort_eq

/-- C10 counterexample: "toString" is none of the three platforms, yet the bracket
lookup reaches the member inherited from `Object.prototype` — truthy, so the Phorest
fallback never fires and `getApiConfig` does not yield the Phorest configuration —
and building the branches endpoint throws a TypeError instead of issuing a
Phorest-style request. -/
theorem protoKey_platform_not_phorest_fallback :
    ("toString" ≠ "phorest" ∧ "toString" ≠ "mindbody" ∧ "toString" ≠ "boulevard") ∧
    getApiConfig "toString" ≠ .config phorestConfig ∧
    getApiConfig "toString" = .protoMember ∧
    branchesRequestUrl "toString" "biz" = .typeError ∧
    reviewsRequestUrl "toString" "biz" "b1" = .typeError := by
  refine ⟨⟨by decide, by decide, by decide⟩, ?_, rfl, rfl, rfl⟩
  intro h
  have h2 : ApiConfigVal.protoMember = .config phorestConfig := h
  exact ApiConfigVal.noConfusion h2

/-- C10 (amended): a platform value that is neither one of the three known ones nor
an `Object.prototype` property name falls back to the Phorest API configuration, so
branch and review requests are built Phorest-style rather than failing; at an
inherited property name the lookup yields the truthy prototype member and the
endpoint build throws a TypeError instead. In either case the per-platform
response-extraction switches take their default branch and yield the empty list. -/
theorem unknown_platform_phorest_fallback (p : String)
    (h1 : p ≠ "phorest") (h2 : p ≠ "mindbody") (h3 : p ≠ "boulevard") :
    (p ∉ protoKeys →
      getApiConfig p = .config phorestConfig ∧
      (∀ businessId, branchesRequestUrl p businessId =
        .url (phorestConfig.baseUrl ++ phorestConfig.branchesEndpoint businessId)) ∧
      (∀ businessId branchId, reviewsRequestUrl p businessId branchId =
        .url (phorestConfig.baseUrl ++
          phorestConfig.reviewsEndpoint businessId branchId))) ∧
    (p ∈ protoKeys →
      getApiConfig p = .protoMember ∧
      (∀ businessId, branchesRequestUrl p businessId = .typeError) ∧
      (∀ businessId branchId, reviewsRequestUrl p businessId branchId = .typeError)) ∧
    (∀ (α : Type) (r : BranchesResponse α), extractBranchData p r = []) ∧
    (∀ (α : Type) (r : ReviewsResponse α), extractReviewData p r = []) := by
  refine ⟨?_, ?_, ?_, ?_⟩
  · intro hnp
    have hc : getApiConfig p = .config phorestConfig := by
      unfold getApiConfig
      rw [if_neg h1, if_neg h2, if_neg h3, if_neg hnp]
    refine ⟨hc, ?_, ?_⟩
    · intro businessId
      unfold branchesRequestUrl
      rw [hc]
    · intro businessId branchId
      unfold reviewsRequestUrl
      rw [hc]
  · intro hp
    have hc : getApiConfig p = .protoMember := by
      unfold getApiConfig
      rw [if_neg h1, if_neg h2, if_neg h3, if_pos hp]
    refine ⟨hc, ?_, ?_⟩
    · intro businessId
      unfold branchesRequestUrl
      rw [hc]
    · intro businessId branchId
      unfold reviewsRequestUrl
      rw [hc]
  · intro α r
    unfold extractBranchData
    rw [if_neg h1, if_neg h2, if_neg h3]
  · intro α r
    unfold extractReviewData
    rw [if_neg h1, if_neg h2, if_neg h3]

/-- Witness for C10 (amended) at the unknown platform value "squarespace" and the
prototype property name "valueOf". -/
theorem unknown_platform_phorest_fallback_witness :
    ("squarespace" ≠ "phorest" ∧ "squarespace" ∉ protoKeys ∧
      "valueOf" ∈ protoKeys) ∧
    getApiConfig "squarespace" = .config phorestConfig ∧
    branchesRequestUrl "squarespace" "biz" =
      .url (phorestConfig.baseUrl ++ phorestConfig.branchesEndpoint "biz") ∧
    getApiConfig "valueOf" = .protoMember ∧
    branchesRequestUrl "valueOf" "biz" = .typeError ∧
    @extractBranchData Nat "squarespace" ⟨some [1], some [2], some [3]⟩ = [] ∧
    @extractReviewData Nat "squarespace" ⟨some [1], some [2], some [3]⟩ = [] :=
  ⟨⟨by decide, by decide, by decide⟩,
   ((unknown_platform_phorest_fallback "squarespace"
      (by decide) (by decide) (by decide)).1 (by decide)).1,
   ((unknown_platform_phorest_fallback "squarespace"
      (by decide) (by decide) (by decide)).1 (by decide)).2.1 "biz",
   ((unknown_platform_phorest_fallback "valueOf"
      (by decide) (by decide) (by decide)).2.1 (by decide)).1,
   ((unknown_platform_phorest_fallback "valueOf"
      (by decide) (by decide) (by decide)).2.1 (by decide)).2.1 "biz",
   (unknown_platform_phorest_fallback "squarespace"
      (by decide) (by decide) (by decide)).2.2.1 Nat ⟨some [1], some [2], some [3]⟩,
   (unknown_platform_phorest_fallback "squarespace"
      (by decide) (by decide) (by decide)).2.2.2 Nat ⟨some [1], some [2], some [3]⟩⟩

end SalonReviews
